import Mathlib

/-!
# istioctl proxy-config: the dispatch glue of `proxyconfig.go`

A shallow embedding of `istioctl/cmd/istioctl/proxyconfig.go`.

The file is glue: every command resolves a namespace, asks
`setupEnvoyConfigWriter` for a primed `ConfigWriter`, builds a filter from the
package-level flag variables and hands it to one presenter method.  The
callees (`kubernetes.NewClient`, `Client.EnvoyDo`, `ConfigWriter.Prime` and the
`Print*` methods) live outside this file, so they are taken as an environment
`Env` of functions; each call the glue makes is recorded, in order, in a list
of `Call`s.  A command is then a pure function from the environment, the
package-level variables and the argument list to the calls it made and the
error it returned.
-/

namespace Istioctl

/-! ## Data -/

/-- A Go byte slice, one number per byte. -/
abbrev Bytes := List Nat

/-- A Go `error` value, by where it was made.  `callee msg` is an error value
handed back by a function outside this file; `Errorf format operand` is the
value built in this file by `fmt.Errorf(format, operand)`.  Go's `nil` error
is `none` of `Option GoError`. -/
inductive GoError where
  | callee (msg : String)
  | Errorf (format : String) (operand : String)
deriving DecidableEq, Repr

/-- The type `configdump.ClusterFilter` as the composite literal of the cluster
command fills it.  `model.Hostname` and `model.TrafficDirection` are string
types and `Port` is a Go `int`. -/
structure ClusterFilter where
  FQDN : String
  Port : Int
  Subset : String
  Direction : String
deriving DecidableEq, Repr

/-- The type `configdump.ListenerFilter`; `Port` is a `uint32`, here a natural
number below `2 ^ 32`, and `Type_` is the Go field `Type`. -/
structure ListenerFilter where
  Address : String
  Port : Nat
  Type_ : String
deriving DecidableEq, Repr

/-- The type `configdump.RouteFilter`. -/
structure RouteFilter where
  Name : String
deriving DecidableEq, Repr

/-- The type `*kubernetes.Client`, known to this file only as a handle. -/
structure Client where
  handle : Nat
deriving DecidableEq, Repr

/-- The type `configdump.ConfigWriter`: the stream it writes to (a file
descriptor number) and the dump it was primed with, if any. -/
structure ConfigWriter where
  Stdout : Nat
  configDump : Option Bytes
deriving DecidableEq, Repr

/-- The file descriptor behind `os.Stdout`. -/
def osStdout : Nat := 1

/-- The package-level variables the commands read: the flag variables declared
in this file (`fqdn`, `direction`, `subset`, `port`, `address`,
`listenerType`, `routeName`) and the ones of package `main` declared in
sibling files (`outputFormat`, `namespace`, `defaultNamespace`, `kubeconfig`,
`configContext`).  `namespace_` is the Go variable `namespace`; `port` is a Go
`int`. -/
structure Globals where
  outputFormat : String
  fqdn : String
  direction : String
  subset : String
  port : Int
  address : String
  listenerType : String
  routeName : String
  namespace_ : String
  defaultNamespace : String
  kubeconfig : String
  configContext : String
deriving DecidableEq, Repr

/-- The functions this file calls and does not define.  A failing callee
answers with the message of its error; a presenter answers `none` for a `nil`
error. -/
structure Env where
  NewClient : String → String → Except String Client
  EnvoyDo : Client → String → String → String → String → Option Bytes → Except String Bytes
  Prime : ConfigWriter → Bytes → Except String ConfigWriter
  PrintClusterSummary : ConfigWriter → ClusterFilter → Option String
  PrintClusterDump : ConfigWriter → ClusterFilter → Option String
  PrintListenerSummary : ConfigWriter → ListenerFilter → Option String
  PrintListenerDump : ConfigWriter → ListenerFilter → Option String
  PrintRouteSummary : ConfigWriter → RouteFilter → Option String
  PrintRouteDump : ConfigWriter → RouteFilter → Option String
  PrintBootstrapDump : ConfigWriter → Option String

/-- One call made by the glue to a function outside this file, with the
arguments it was given. -/
inductive Call where
  | NewClient (kubeconfig configContext : String)
  | EnvoyDo (podName podNamespace method path : String) (body : Option Bytes)
  | Prime (debug : Bytes)
  | PrintClusterSummary (filter : ClusterFilter)
  | PrintClusterDump (filter : ClusterFilter)
  | PrintListenerSummary (filter : ListenerFilter)
  | PrintListenerDump (filter : ListenerFilter)
  | PrintRouteSummary (filter : RouteFilter)
  | PrintRouteDump (filter : RouteFilter)
  | PrintBootstrapDump
deriving DecidableEq, Repr

/-- What one run of a command did: the calls it made, oldest first, and the
error `RunE` returned (`none` for `nil`). -/
structure Run where
  calls : List Call
  result : Option GoError
deriving DecidableEq, Repr

/-! ## Constants -/

def jsonOutput : String := "json"

def summaryOutput : String := "short"

/-- The constant `v1.NamespaceAll` of `k8s.io/api/core/v1`: the empty string. -/
def NamespaceAll : String := ""

/-- The conversion `uint32(p)` of a Go `int`: the low 32 bits. -/
def uint32 (p : Int) : Nat := (p % (2 ^ 32 : Int)).toNat

/-- Lifts the answer of a presenter to the `error` that `RunE` returns. -/
def presenterError : Option String → Option GoError
  | none => none
  | some msg => some (GoError.callee msg)

/-! ## Functions of the file -/

/-- The function `handleNamespace`. -/
def handleNamespace (g : Globals) : String :=
  let ns := g.namespace_
  if ns = NamespaceAll then g.defaultNamespace else ns

/-- The function `setupEnvoyConfigWriter`: the calls it made and what it
returned, `Except.error err` standing for `(nil, err)`. -/
def setupEnvoyConfigWriter (env : Env) (g : Globals) (podName podNamespace : String) :
    List Call × Except GoError ConfigWriter :=
  match env.NewClient g.kubeconfig g.configContext with
  | .error err => ([Call.NewClient g.kubeconfig g.configContext], .error (GoError.callee err))
  | .ok kubeClient =>
    let path := "config_dump"
    match env.EnvoyDo kubeClient podName podNamespace "GET" path none with
    | .error err =>
      ([Call.NewClient g.kubeconfig g.configContext,
        Call.EnvoyDo podName podNamespace "GET" path none], .error (GoError.callee err))
    | .ok debug =>
      let cw : ConfigWriter := { Stdout := osStdout, configDump := none }
      match env.Prime cw debug with
      | .error err =>
        ([Call.NewClient g.kubeconfig g.configContext,
          Call.EnvoyDo podName podNamespace "GET" path none,
          Call.Prime debug], .error (GoError.callee err))
      | .ok cw =>
        ([Call.NewClient g.kubeconfig g.configContext,
          Call.EnvoyDo podName podNamespace "GET" path none,
          Call.Prime debug], .ok cw)

/-- The composite literal `configdump.ClusterFilter{...}` that the `RunE`
closure of `clusterConfigCmd` assigns to `filter`. -/
def clusterFilter (g : Globals) : ClusterFilter :=
  { FQDN := g.fqdn, Port := g.port, Subset := g.subset, Direction := g.direction }

/-- The composite literal `configdump.ListenerFilter{...}` that the `RunE`
closure of `listenerConfigCmd` assigns to `filter`. -/
def listenerFilter (g : Globals) : ListenerFilter :=
  { Address := g.address, Port := uint32 g.port, Type_ := g.listenerType }

/-- The composite literal `configdump.RouteFilter{...}` that the `RunE` closure
of `routeConfigCmd` assigns to `filter`. -/
def routeFilter (g : Globals) : RouteFilter :=
  { Name := g.routeName }

/-- The `RunE` closure of `clusterConfigCmd`.  `none` is the run-time panic of
`args[0]` on an empty argument list, which `cobra.ExactArgs(1)` rules out. -/
def clusterConfigCmd_RunE (env : Env) (g : Globals) (args : List String) : Option Run :=
  match args with
  | [] => none
  | podName :: _ =>
    let ns := handleNamespace g
    match setupEnvoyConfigWriter env g podName ns with
    | (calls, .error err) => some { calls := calls, result := some err }
    | (calls, .ok configWriter) =>
      let filter := clusterFilter g
      if g.outputFormat = summaryOutput then
        some { calls := calls ++ [Call.PrintClusterSummary filter],
               result := presenterError (env.PrintClusterSummary configWriter filter) }
      else if g.outputFormat = jsonOutput then
        some { calls := calls ++ [Call.PrintClusterDump filter],
               result := presenterError (env.PrintClusterDump configWriter filter) }
      else
        some { calls := calls,
               result := some (GoError.Errorf "output format %q not supported" g.outputFormat) }

/-- The `RunE` closure of `listenerConfigCmd`. -/
def listenerConfigCmd_RunE (env : Env) (g : Globals) (args : List String) : Option Run :=
  match args with
  | [] => none
  | podName :: _ =>
    let ns := handleNamespace g
    match setupEnvoyConfigWriter env g podName ns with
    | (calls, .error err) => some { calls := calls, result := some err }
    | (calls, .ok configWriter) =>
      let filter := listenerFilter g
      if g.outputFormat = summaryOutput then
        some { calls := calls ++ [Call.PrintListenerSummary filter],
               result := presenterError (env.PrintListenerSummary configWriter filter) }
      else if g.outputFormat = jsonOutput then
        some { calls := calls ++ [Call.PrintListenerDump filter],
               result := presenterError (env.PrintListenerDump configWriter filter) }
      else
        some { calls := calls,
               result := some (GoError.Errorf "output format %q not supported" g.outputFormat) }

/-- The `RunE` closure of `routeConfigCmd`. -/
def routeConfigCmd_RunE (env : Env) (g : Globals) (args : List String) : Option Run :=
  match args with
  | [] => none
  | podName :: _ =>
    let ns := handleNamespace g
    match setupEnvoyConfigWriter env g podName ns with
    | (calls, .error err) => some { calls := calls, result := some err }
    | (calls, .ok configWriter) =>
      let filter := routeFilter g
      if g.outputFormat = summaryOutput then
        some { calls := calls ++ [Call.PrintRouteSummary filter],
               result := presenterError (env.PrintRouteSummary configWriter filter) }
      else if g.outputFormat = jsonOutput then
        some { calls := calls ++ [Call.PrintRouteDump filter],
               result := presenterError (env.PrintRouteDump configWriter filter) }
      else
        some { calls := calls,
               result := some (GoError.Errorf "output format %q not supported" g.outputFormat) }

/-- The `RunE` closure of `bootstrapConfigCmd`. -/
def bootstrapConfigCmd_RunE (env : Env) (g : Globals) (args : List String) : Option Run :=
  match args with
  | [] => none
  | podName :: _ =>
    let ns := handleNamespace g
    match setupEnvoyConfigWriter env g podName ns with
    | (calls, .error err) => some { calls := calls, result := some err }
    | (calls, .ok configWriter) =>
      some { calls := calls ++ [Call.PrintBootstrapDump],
             result := presenterError (env.PrintBootstrapDump configWriter) }

/-- The default values that `init` registers for the flags of this file: the
value each flag variable holds when its flag is not given on the command
line.  The other package-level variables are left as they are. -/
def init (g : Globals) : Globals :=
  { g with
    outputFormat := summaryOutput
    fqdn := ""
    direction := ""
    subset := ""
    port := 0
    address := ""
    listenerType := ""
    routeName := "" }

/-! ## Reading a run -/

/-- Whether a call is one to a presenter method (`Print*Summary` or
`Print*Dump`). -/
def Call.isPresenter : Call → Bool
  | .PrintClusterSummary _ => true
  | .PrintClusterDump _ => true
  | .PrintListenerSummary _ => true
  | .PrintListenerDump _ => true
  | .PrintRouteSummary _ => true
  | .PrintRouteDump _ => true
  | .PrintBootstrapDump => true
  | _ => false

/-- The presenter calls of a run, in order. -/
def Run.presented (r : Run) : List Call := r.calls.filter Call.isPresenter

/-! ## The cluster Filter Evaluator

`configdump.ClusterFilter.Verify` is in package `configdump`, outside this
file; what follows is taken from the specification's table of criteria. -/

/-- Modelled from the spec: a cluster ResourceEntry, the element type of the
clusters section of the dump, which is absent from the sources at hand.  It
exposes the fields the cluster criteria read: the service FQDN carried by its
name, its port, its subset and its direction. -/
structure ClusterEntry where
  name : String
  port : Int
  subset : String
  direction : String
deriving DecidableEq, Repr

/-- Modelled from the spec: the "contains the given text" test of the
substring criteria (case-sensitive, literal), absent from the sources at
hand: some suffix of `s` starts with `text`. -/
def containsText (s text : String) : Bool :=
  s.toList.tails.any (fun t => text.toList.isPrefixOf t)

/-- Modelled from the spec: the cluster Filter Evaluator
(`configdump.ClusterFilter.Verify`, absent from the sources at hand).  Every
criterion that is set is tested in turn and the first one that fails rejects
the entry: FQDN and Subset by containment, Port and Direction by equality; a
criterion left at `""` or `0` is skipped. -/
def ClusterFilter.Verify (f : ClusterFilter) (e : ClusterEntry) : Bool :=
  if f.FQDN ≠ "" && !containsText e.name f.FQDN then false
  else if f.Port ≠ 0 && e.port ≠ f.Port then false
  else if f.Subset ≠ "" && !containsText e.subset f.Subset then false
  else if f.Direction ≠ "" && e.direction ≠ f.Direction then false
  else true

/-! ## Concrete environments and inputs -/

/-- An environment in which every callee succeeds: the endpoint answers `{}`,
`Prime` stores the dump in the writer and the presenters return `nil`. -/
def okEnv : Env where
  NewClient := fun _ _ => .ok { handle := 7 }
  EnvoyDo := fun _ _ _ _ _ _ => .ok [123, 125]
  Prime := fun cw debug => .ok { cw with configDump := some debug }
  PrintClusterSummary := fun _ _ => none
  PrintClusterDump := fun _ _ => none
  PrintListenerSummary := fun _ _ => none
  PrintListenerDump := fun _ _ => none
  PrintRouteSummary := fun _ _ => none
  PrintRouteDump := fun _ _ => none
  PrintBootstrapDump := fun _ => none

/-- An environment without a usable kubeconfig: client creation fails. -/
def noClientEnv : Env :=
  { okEnv with NewClient := fun _ _ => .error "invalid configuration: no configuration has been provided" }

/-- An environment in which the pod cannot be reached: `EnvoyDo` fails. -/
def noPodEnv : Env :=
  { okEnv with EnvoyDo := fun _ _ _ _ _ _ => .error "pod details-v1 not found" }

/-- An environment in which the dump does not parse: `Prime` fails. -/
def badDumpEnv : Env :=
  { okEnv with Prime := fun _ _ => .error "unexpected end of JSON input" }

/-- An environment whose presenters all fail. -/
def failingPresenterEnv : Env :=
  { okEnv with
    PrintClusterSummary := fun _ _ => some "write failed"
    PrintClusterDump := fun _ _ => some "write failed"
    PrintListenerSummary := fun _ _ => some "write failed"
    PrintListenerDump := fun _ _ => some "write failed"
    PrintRouteSummary := fun _ _ => some "write failed"
    PrintRouteDump := fun _ _ => some "write failed"
    PrintBootstrapDump := fun _ => some "write failed" }

/-- The package-level variables of a run with no flag given, under a default
namespace `default`. -/
def plainGlobals : Globals :=
  init { outputFormat := "", fqdn := "", direction := "", subset := "", port := 0,
         address := "", listenerType := "", routeName := "", namespace_ := "",
         defaultNamespace := "default", kubeconfig := "", configContext := "" }

/-- The package-level variables of a run with `-o xml` and no other flag. -/
def xmlGlobals : Globals := { plainGlobals with outputFormat := "xml" }

/-- The package-level variables of a run with `-o summary` and no other flag. -/
def summaryGlobals : Globals := { plainGlobals with outputFormat := "summary" }

/-- The package-level variables of a run with `-o json` and no other flag. -/
def jsonGlobals : Globals := { plainGlobals with outputFormat := "json" }

/-- The package-level variables of a run with every filter flag given. -/
def filteredGlobals : Globals :=
  { plainGlobals with
    fqdn := "details.default.svc.cluster.local"
    direction := "inbound"
    subset := "v1"
    port := 9080
    address := "0.0.0.0"
    listenerType := "HTTP"
    routeName := "9080" }

/-- The package-level variables of a run with `-n istio-system`. -/
def namespacedGlobals : Globals := { plainGlobals with namespace_ := "istio-system" }

/-- The package-level variables of a run with `--fqdn a.default` and no other
flag. -/
def fqdnGlobals : Globals := { plainGlobals with fqdn := "a.default" }

/-- The package-level variables of a run with `--port -1` and no other flag. -/
def negativePortGlobals : Globals := { plainGlobals with port := -1 }

/-- The first cluster of the specification's scenario. -/
def clusterA : ClusterEntry :=
  { name := "a.default.svc.cluster.local", port := 9080, subset := "", direction := "inbound" }

/-- The second cluster of the specification's scenario. -/
def clusterB : ClusterEntry :=
  { name := "b.default.svc.cluster.local", port := 9090, subset := "", direction := "outbound" }

/-! ## Lemmas on `setupEnvoyConfigWriter` and on the shape of a run -/

/-- The calls of `setupEnvoyConfigWriter` always start with the creation of
the kube client. -/
theorem setup_calls_head (env : Env) (g : Globals) (podName podNamespace : String) :
    ∃ rest, (setupEnvoyConfigWriter env g podName podNamespace).1
      = Call.NewClient g.kubeconfig g.configContext :: rest := by
  unfold setupEnvoyConfigWriter
  cases env.NewClient g.kubeconfig g.configContext with
  | error err => exact ⟨_, rfl⟩
  | ok kubeClient =>
    dsimp only
    cases env.EnvoyDo kubeClient podName podNamespace "GET" "config_dump" none with
    | error err => exact ⟨_, rfl⟩
    | ok debug =>
      dsimp only
      cases env.Prime { Stdout := osStdout, configDump := none } debug with
      | error err => exact ⟨_, rfl⟩
      | ok cw => exact ⟨_, rfl⟩

/-- A successful `setupEnvoyConfigWriter` made exactly three calls: client
creation, the `GET config_dump` request and `Prime` on the body received. -/
theorem setup_calls_of_ok (env : Env) (g : Globals) (podName podNamespace : String)
    (cw : ConfigWriter)
    (h : (setupEnvoyConfigWriter env g podName podNamespace).2 = .ok cw) :
    ∃ debug, (setupEnvoyConfigWriter env g podName podNamespace).1
      = [Call.NewClient g.kubeconfig g.configContext,
         Call.EnvoyDo podName podNamespace "GET" "config_dump" none,
         Call.Prime debug] := by
  unfold setupEnvoyConfigWriter at h ⊢
  cases h1 : env.NewClient g.kubeconfig g.configContext with
  | error err => simp [h1] at h
  | ok kubeClient =>
    simp only [h1] at h ⊢
    cases h2 : env.EnvoyDo kubeClient podName podNamespace "GET" "config_dump" none with
    | error err => simp [h2] at h
    | ok debug =>
      simp only [h2] at h ⊢
      cases h3 : env.Prime { Stdout := osStdout, configDump := none } debug with
      | error err => simp [h3] at h
      | ok cw1 => exact ⟨debug, rfl⟩

/-- No call of `setupEnvoyConfigWriter` is a presenter call. -/
theorem setup_calls_no_presenter (env : Env) (g : Globals) (podName podNamespace : String) :
    (setupEnvoyConfigWriter env g podName podNamespace).1.filter Call.isPresenter = [] := by
  unfold setupEnvoyConfigWriter
  cases env.NewClient g.kubeconfig g.configContext with
  | error err => rfl
  | ok kubeClient =>
    dsimp only
    cases env.EnvoyDo kubeClient podName podNamespace "GET" "config_dump" none with
    | error err => rfl
    | ok debug =>
      dsimp only
      cases env.Prime { Stdout := osStdout, configDump := none } debug with
      | error err => rfl
      | ok cw => rfl

/-- An `EnvoyDo` call of `setupEnvoyConfigWriter` carries the pod name and the
namespace it was given. -/
theorem setup_calls_envoyDo (env : Env) (g : Globals) (podName podNamespace : String)
    (p ns m path : String) (body : Option Bytes)
    (h : Call.EnvoyDo p ns m path body ∈ (setupEnvoyConfigWriter env g podName podNamespace).1) :
    p = podName ∧ ns = podNamespace ∧ m = "GET" ∧ path = "config_dump" ∧ body = none := by
  unfold setupEnvoyConfigWriter at h
  cases h1 : env.NewClient g.kubeconfig g.configContext with
  | error err => simp [h1] at h
  | ok kubeClient =>
    simp only [h1] at h
    cases h2 : env.EnvoyDo kubeClient podName podNamespace "GET" "config_dump" none with
    | error err => simpa [h2] using h
    | ok debug =>
      simp only [h2] at h
      cases h3 : env.Prime { Stdout := osStdout, configDump := none } debug with
      | error err => simpa [h3] using h
      | ok cw1 => simpa [h3] using h

/-- An error returned by `setupEnvoyConfigWriter` is one handed back by a
callee, never one built by `fmt.Errorf` in this file. -/
theorem setup_error_ne_Errorf (env : Env) (g : Globals) (podName podNamespace : String)
    (err : GoError)
    (h : (setupEnvoyConfigWriter env g podName podNamespace).2 = .error err)
    (format operand : String) : err ≠ GoError.Errorf format operand := by
  unfold setupEnvoyConfigWriter at h
  cases h1 : env.NewClient g.kubeconfig g.configContext with
  | error e1 =>
    simp only [h1] at h
    cases h
    simp
  | ok kubeClient =>
    simp only [h1] at h
    cases h2 : env.EnvoyDo kubeClient podName podNamespace "GET" "config_dump" none with
    | error e2 =>
      simp only [h2] at h
      cases h
      simp
    | ok debug =>
      simp only [h2] at h
      cases h3 : env.Prime { Stdout := osStdout, configDump := none } debug with
      | error e3 =>
        simp only [h3] at h
        cases h
        simp
      | ok cw1 =>
        simp only [h3] at h
        cases h

/-- The package-level variable `outputFormat` is not read by
`setupEnvoyConfigWriter`. -/
theorem setup_outputFormat_irrelevant (env : Env) (g : Globals) (fmt podName podNamespace : String) :
    setupEnvoyConfigWriter env { g with outputFormat := fmt } podName podNamespace
      = setupEnvoyConfigWriter env g podName podNamespace := rfl

/-- A command whose `setupEnvoyConfigWriter` failed: the four closures. -/
theorem runE_of_setup_error (env : Env) (g : Globals) (podName : String) (rest : List String)
    (err : GoError)
    (h : (setupEnvoyConfigWriter env g podName (handleNamespace g)).2 = .error err) :
    let failed : Option Run :=
      some { calls := (setupEnvoyConfigWriter env g podName (handleNamespace g)).1,
             result := some err }
    clusterConfigCmd_RunE env g (podName :: rest) = failed ∧
    listenerConfigCmd_RunE env g (podName :: rest) = failed ∧
    routeConfigCmd_RunE env g (podName :: rest) = failed ∧
    bootstrapConfigCmd_RunE env g (podName :: rest) = failed := by
  unfold clusterConfigCmd_RunE listenerConfigCmd_RunE routeConfigCmd_RunE
    bootstrapConfigCmd_RunE
  dsimp only
  generalize setupEnvoyConfigWriter env g podName (handleNamespace g) = s at h ⊢
  obtain ⟨calls, res⟩ := s
  simp only at h
  subst h
  simp

/-- The cluster closure after a successful `setupEnvoyConfigWriter`. -/
theorem cluster_runE_of_setup_ok (env : Env) (g : Globals) (podName : String)
    (rest : List String) (cw : ConfigWriter)
    (h : (setupEnvoyConfigWriter env g podName (handleNamespace g)).2 = .ok cw) :
    clusterConfigCmd_RunE env g (podName :: rest) =
      if g.outputFormat = summaryOutput then
        some { calls := (setupEnvoyConfigWriter env g podName (handleNamespace g)).1
                 ++ [Call.PrintClusterSummary (clusterFilter g)],
               result := presenterError (env.PrintClusterSummary cw (clusterFilter g)) }
      else if g.outputFormat = jsonOutput then
        some { calls := (setupEnvoyConfigWriter env g podName (handleNamespace g)).1
                 ++ [Call.PrintClusterDump (clusterFilter g)],
               result := presenterError (env.PrintClusterDump cw (clusterFilter g)) }
      else
        some { calls := (setupEnvoyConfigWriter env g podName (handleNamespace g)).1,
               result := some (GoError.Errorf "output format %q not supported" g.outputFormat) } := by
  unfold clusterConfigCmd_RunE
  dsimp only
  generalize setupEnvoyConfigWriter env g podName (handleNamespace g) = s at h ⊢
  obtain ⟨calls, res⟩ := s
  simp only at h
  subst h
  simp

/-- The listener closure after a successful `setupEnvoyConfigWriter`. -/
theorem listener_runE_of_setup_ok (env : Env) (g : Globals) (podName : String)
    (rest : List String) (cw : ConfigWriter)
    (h : (setupEnvoyConfigWriter env g podName (handleNamespace g)).2 = .ok cw) :
    listenerConfigCmd_RunE env g (podName :: rest) =
      if g.outputFormat = summaryOutput then
        some { calls := (setupEnvoyConfigWriter env g podName (handleNamespace g)).1
                 ++ [Call.PrintListenerSummary (listenerFilter g)],
               result := presenterError (env.PrintListenerSummary cw (listenerFilter g)) }
      else if g.outputFormat = jsonOutput then
        some { calls := (setupEnvoyConfigWriter env g podName (handleNamespace g)).1
                 ++ [Call.PrintListenerDump (listenerFilter g)],
               result := presenterError (env.PrintListenerDump cw (listenerFilter g)) }
      else
        some { calls := (setupEnvoyConfigWriter env g podName (handleNamespace g)).1,
               result := some (GoError.Errorf "output format %q not supported" g.outputFormat) } := by
  unfold listenerConfigCmd_RunE
  dsimp only
  generalize setupEnvoyConfigWriter env g podName (handleNamespace g) = s at h ⊢
  obtain ⟨calls, res⟩ := s
  simp only at h
  subst h
  simp

/-- The route closure after a successful `setupEnvoyConfigWriter`. -/
theorem route_runE_of_setup_ok (env : Env) (g : Globals) (podName : String)
    (rest : List String) (cw : ConfigWriter)
    (h : (setupEnvoyConfigWriter env g podName (handleNamespace g)).2 = .ok cw) :
    routeConfigCmd_RunE env g (podName :: rest) =
      if g.outputFormat = summaryOutput then
        some { calls := (setupEnvoyConfigWriter env g podName (handleNamespace g)).1
                 ++ [Call.PrintRouteSummary (routeFilter g)],
               result := presenterError (env.PrintRouteSummary cw (routeFilter g)) }
      else if g.outputFormat = jsonOutput then
        some { calls := (setupEnvoyConfigWriter env g podName (handleNamespace g)).1
                 ++ [Call.PrintRouteDump (routeFilter g)],
               result := presenterError (env.PrintRouteDump cw (routeFilter g)) }
      else
        some { calls := (setupEnvoyConfigWriter env g podName (handleNamespace g)).1,
               result := some (GoError.Errorf "output format %q not supported" g.outputFormat) } := by
  unfold routeConfigCmd_RunE
  dsimp only
  generalize setupEnvoyConfigWriter env g podName (handleNamespace g) = s at h ⊢
  obtain ⟨calls, res⟩ := s
  simp only at h
  subst h
  simp

/-- The bootstrap closure after a successful `setupEnvoyConfigWriter`. -/
theorem bootstrap_runE_of_setup_ok (env : Env) (g : Globals) (podName : String)
    (rest : List String) (cw : ConfigWriter)
    (h : (setupEnvoyConfigWriter env g podName (handleNamespace g)).2 = .ok cw) :
    bootstrapConfigCmd_RunE env g (podName :: rest) =
      some { calls := (setupEnvoyConfigWriter env g podName (handleNamespace g)).1
               ++ [Call.PrintBootstrapDump],
             result := presenterError (env.PrintBootstrapDump cw) } := by
  unfold bootstrapConfigCmd_RunE
  dsimp only
  generalize setupEnvoyConfigWriter env g podName (handleNamespace g) = s at h ⊢
  obtain ⟨calls, res⟩ := s
  simp only at h
  subst h
  simp

/-- A presenter never hands back an error built by `fmt.Errorf` in this
file. -/
theorem presenterError_ne_Errorf (r : Option String) (format operand : String) :
    presenterError r ≠ some (GoError.Errorf format operand) := by
  cases r <;> simp [presenterError]

/-- A presenter call is not among the calls of `setupEnvoyConfigWriter`. -/
theorem presenter_not_mem_setup (env : Env) (g : Globals) (podName podNamespace : String)
    (c : Call) (hc : c.isPresenter = true) :
    c ∉ (setupEnvoyConfigWriter env g podName podNamespace).1 := by
  intro hmem
  have h := setup_calls_no_presenter env g podName podNamespace
  rw [List.filter_eq_nil_iff] at h
  exact h c hmem hc

/-- A presenter call found in the calls of `setupEnvoyConfigWriter` followed by
one more call is that last call. -/
theorem presenter_mem_setup_append (env : Env) (g : Globals) (podName podNamespace : String)
    (c d : Call) (hc : c.isPresenter = true)
    (h : c ∈ (setupEnvoyConfigWriter env g podName podNamespace).1 ++ [d]) : c = d := by
  rw [List.mem_append] at h
  rcases h with h | h
  · exact absurd h (presenter_not_mem_setup env g podName podNamespace c hc)
  · simpa using h

/-- The presenter calls of a run made of the calls of `setupEnvoyConfigWriter`
followed by one presenter call: that call alone. -/
theorem presented_setup_append (env : Env) (g : Globals) (podName podNamespace : String)
    (d : Call) (hd : d.isPresenter = true) (res : Option GoError) :
    Run.presented { calls := (setupEnvoyConfigWriter env g podName podNamespace).1 ++ [d],
                    result := res } = [d] := by
  simp [Run.presented, List.filter_append, setup_calls_no_presenter, hd]

/-- Once the kube client exists, the `GET config_dump` request is among the
calls of `setupEnvoyConfigWriter`. -/
theorem setup_calls_mem_envoyDo (env : Env) (g : Globals) (podName podNamespace : String)
    (kubeClient : Client) (h : env.NewClient g.kubeconfig g.configContext = .ok kubeClient) :
    Call.EnvoyDo podName podNamespace "GET" "config_dump" none
      ∈ (setupEnvoyConfigWriter env g podName podNamespace).1 := by
  unfold setupEnvoyConfigWriter
  simp only [h]
  cases h2 : env.EnvoyDo kubeClient podName podNamespace "GET" "config_dump" none with
  | error err => simp
  | ok debug =>
    simp only []
    cases h3 : env.Prime { Stdout := osStdout, configDump := none } debug with
    | error err => simp
    | ok cw1 => simp

/-- The calls of a run of any of the four commands are the calls of
`setupEnvoyConfigWriter`, followed by at most one presenter call. -/
theorem runE_calls_shape (env : Env) (g : Globals) (podName : String) (run : Run)
    (h : clusterConfigCmd_RunE env g [podName] = some run ∨
      listenerConfigCmd_RunE env g [podName] = some run ∨
      routeConfigCmd_RunE env g [podName] = some run ∨
      bootstrapConfigCmd_RunE env g [podName] = some run) :
    run.calls = (setupEnvoyConfigWriter env g podName (handleNamespace g)).1 ∨
    ∃ d : Call, d.isPresenter = true ∧
      run.calls = (setupEnvoyConfigWriter env g podName (handleNamespace g)).1 ++ [d] := by
  cases hsetup : (setupEnvoyConfigWriter env g podName (handleNamespace g)).2 with
  | error err =>
    obtain ⟨hc, hl, hr, hb⟩ := runE_of_setup_error env g podName [] err hsetup
    rw [hc, hl, hr, hb] at h
    simp only [or_self, Option.some.injEq] at h
    subst h
    exact Or.inl rfl
  | ok cw =>
    rw [cluster_runE_of_setup_ok env g podName [] cw hsetup,
      listener_runE_of_setup_ok env g podName [] cw hsetup,
      route_runE_of_setup_ok env g podName [] cw hsetup,
      bootstrap_runE_of_setup_ok env g podName [] cw hsetup] at h
    by_cases hs : g.outputFormat = summaryOutput
    · simp only [if_pos hs, Option.some.injEq] at h
      rcases h with h | h | h | h <;> subst h <;> exact Or.inr ⟨_, by rfl, rfl⟩
    · by_cases hj : g.outputFormat = jsonOutput
      · simp only [if_neg hs, if_pos hj, Option.some.injEq] at h
        rcases h with h | h | h | h <;> subst h <;> exact Or.inr ⟨_, by rfl, rfl⟩
      · simp only [if_neg hs, if_neg hj, Option.some.injEq] at h
        rcases h with h | h | h | h <;> subst h
        · exact Or.inl rfl
        · exact Or.inl rfl
        · exact Or.inl rfl
        · exact Or.inr ⟨_, by rfl, rfl⟩

/-- A cluster filter found in a presenter call of the cluster command is the
one built from the flag variables. -/
theorem cluster_filter_of_mem (env : Env) (g : Globals) (podName : String) (run : Run)
    (f : ClusterFilter)
    (hrun : clusterConfigCmd_RunE env g [podName] = some run)
    (hmem : Call.PrintClusterSummary f ∈ run.calls ∨ Call.PrintClusterDump f ∈ run.calls) :
    f = clusterFilter g := by
  cases hsetup : (setupEnvoyConfigWriter env g podName (handleNamespace g)).2 with
  | error err =>
    rw [(runE_of_setup_error env g podName [] err hsetup).1] at hrun
    cases hrun
    rcases hmem with h | h <;>
      exact absurd h (presenter_not_mem_setup env g podName _ _ (by rfl))
  | ok cw =>
    rw [cluster_runE_of_setup_ok env g podName [] cw hsetup] at hrun
    split at hrun
    · cases hrun
      rcases hmem with h | h <;>
        simpa using presenter_mem_setup_append env g podName _ _ _ (by rfl) h
    · split at hrun
      · cases hrun
        rcases hmem with h | h <;>
          simpa using presenter_mem_setup_append env g podName _ _ _ (by rfl) h
      · cases hrun
        rcases hmem with h | h <;>
          exact absurd h (presenter_not_mem_setup env g podName _ _ (by rfl))

/-- A listener filter found in a presenter call of the listener command is the
one built from the flag variables. -/
theorem listener_filter_of_mem (env : Env) (g : Globals) (podName : String) (run : Run)
    (f : ListenerFilter)
    (hrun : listenerConfigCmd_RunE env g [podName] = some run)
    (hmem : Call.PrintListenerSummary f ∈ run.calls ∨ Call.PrintListenerDump f ∈ run.calls) :
    f = listenerFilter g := by
  cases hsetup : (setupEnvoyConfigWriter env g podName (handleNamespace g)).2 with
  | error err =>
    rw [(runE_of_setup_error env g podName [] err hsetup).2.1] at hrun
    cases hrun
    rcases hmem with h | h <;>
      exact absurd h (presenter_not_mem_setup env g podName _ _ (by rfl))
  | ok cw =>
    rw [listener_runE_of_setup_ok env g podName [] cw hsetup] at hrun
    split at hrun
    · cases hrun
      rcases hmem with h | h <;>
        simpa using presenter_mem_setup_append env g podName _ _ _ (by rfl) h
    · split at hrun
      · cases hrun
        rcases hmem with h | h <;>
          simpa using presenter_mem_setup_append env g podName _ _ _ (by rfl) h
      · cases hrun
        rcases hmem with h | h <;>
          exact absurd h (presenter_not_mem_setup env g podName _ _ (by rfl))

/-- A route filter found in a presenter call of the route command is the
one built from the flag variables. -/
theorem route_filter_of_mem (env : Env) (g : Globals) (podName : String) (run : Run)
    (f : RouteFilter)
    (hrun : routeConfigCmd_RunE env g [podName] = some run)
    (hmem : Call.PrintRouteSummary f ∈ run.calls ∨ Call.PrintRouteDump f ∈ run.calls) :
    f = routeFilter g := by
  cases hsetup : (setupEnvoyConfigWriter env g podName (handleNamespace g)).2 with
  | error err =>
    rw [(runE_of_setup_error env g podName [] err hsetup).2.2.1] at hrun
    cases hrun
    rcases hmem with h | h <;>
      exact absurd h (presenter_not_mem_setup env g podName _ _ (by rfl))
  | ok cw =>
    rw [route_runE_of_setup_ok env g podName [] cw hsetup] at hrun
    split at hrun
    · cases hrun
      rcases hmem with h | h <;>
        simpa using presenter_mem_setup_append env g podName _ _ _ (by rfl) h
    · split at hrun
      · cases hrun
        rcases hmem with h | h <;>
          simpa using presenter_mem_setup_append env g podName _ _ _ (by rfl) h
      · cases hrun
        rcases hmem with h | h <;>
          exact absurd h (presenter_not_mem_setup env g podName _ _ (by rfl))

/-- The containment test holds exactly when the text is a contiguous part of
the string. -/
theorem containsText_iff (s text : String) :
    containsText s text = true ↔ text.toList <:+: s.toList := by
  unfold containsText
  rw [List.any_eq_true, List.infix_iff_prefix_suffix]
  constructor
  · rintro ⟨t, ht, hp⟩
    exact ⟨t, List.isPrefixOf_iff_prefix.mp hp, (List.mem_tails t s.toList).mp ht⟩
  · rintro ⟨t, hp, ht⟩
    exact ⟨t, (List.mem_tails t s.toList).mpr ht, List.isPrefixOf_iff_prefix.mpr hp⟩

/-- The conversion `uint32` as an integer: the remainder modulo `2 ^ 32`. -/
theorem uint32_cast (p : Int) : ((uint32 p : Nat) : Int) = p % (2 ^ 32 : Int) := by
  unfold uint32
  exact Int.toNat_of_nonneg (Int.emod_nonneg p (by norm_num))

/-- The conversion `uint32` yields a value below `2 ^ 32`. -/
theorem uint32_lt (p : Int) : uint32 p < 2 ^ 32 := by
  have h1 := uint32_cast p
  have h2 : p % (2 ^ 32 : Int) < 2 ^ 32 := Int.emod_lt_of_pos p (by norm_num)
  omega

/-- The three-way switch on the output format ends in the error built by
`fmt.Errorf` exactly on its default branch. -/
theorem dispatch_result_iff (fmt : String) (calls1 calls2 calls3 : List Call)
    (r1 r2 : Option String) (run : Run)
    (h : (if fmt = summaryOutput then
            some ({ calls := calls1, result := presenterError r1 } : Run)
          else if fmt = jsonOutput then
            some { calls := calls2, result := presenterError r2 }
          else
            some { calls := calls3,
                   result := some (GoError.Errorf "output format %q not supported" fmt) })
          = some run) :
    run.result = some (GoError.Errorf "output format %q not supported" fmt) ↔
      fmt ≠ "short" ∧ fmt ≠ "json" := by
  by_cases hs : fmt = summaryOutput
  · rw [if_pos hs] at h
    cases h
    have hs1 : fmt = "short" := hs
    constructor
    · intro hres
      exact absurd hres (presenterError_ne_Errorf r1 _ _)
    · intro hne
      exact absurd hs1 hne.1
  · rw [if_neg hs] at h
    have hs1 : fmt ≠ "short" := hs
    by_cases hj : fmt = jsonOutput
    · rw [if_pos hj] at h
      cases h
      have hj1 : fmt = "json" := hj
      constructor
      · intro hres
        exact absurd hres (presenterError_ne_Errorf r2 _ _)
      · intro hne
        exact absurd hj1 hne.2
    · rw [if_neg hj] at h
      cases h
      have hj1 : fmt ≠ "json" := hj
      exact ⟨fun _ => ⟨hs1, hj1⟩, fun _ => rfl⟩

/-! ## Unsupported output formats -/

/-- C1, counterexample: with `-o xml`, which is neither `short` nor `json`, and
no usable kubeconfig, the cluster command returns the error of the client
creation, not the error "output format ... not supported". -/
theorem unsupported_format_error_counterexample :
    xmlGlobals.outputFormat ≠ "short" ∧ xmlGlobals.outputFormat ≠ "json" ∧
    clusterConfigCmd_RunE noClientEnv xmlGlobals ["details-v1"]
      = some { calls := [Call.NewClient "" ""],
               result := some (GoError.callee
                 "invalid configuration: no configuration has been provided") } ∧
    clusterConfigCmd_RunE noClientEnv xmlGlobals ["details-v1"]
      ≠ some { calls := [Call.NewClient "" ""],
               result := some (GoError.Errorf "output format %q not supported" "xml") } := by
  decide

/-- C1, amended: for every output format that is neither `short` nor `json`,
the cluster, listener and route commands all end the same way: an error is
returned and no presenter method is called.  The error is
`fmt.Errorf("output format %q not supported", outputFormat)`, naming the
requested value, when `setupEnvoyConfigWriter` succeeded, and the error of
`setupEnvoyConfigWriter` when it failed. -/
theorem unsupported_format_renders_nothing (env : Env) (g : Globals) (podName : String)
    (hshort : g.outputFormat ≠ "short") (hjson : g.outputFormat ≠ "json") :
    ∃ run : Run,
      clusterConfigCmd_RunE env g [podName] = some run ∧
      listenerConfigCmd_RunE env g [podName] = some run ∧
      routeConfigCmd_RunE env g [podName] = some run ∧
      run.presented = [] ∧
      (∃ err, run.result = some err) ∧
      (∀ cw, (setupEnvoyConfigWriter env g podName (handleNamespace g)).2 = .ok cw →
        run.result = some (GoError.Errorf "output format %q not supported" g.outputFormat)) ∧
      (∀ err, (setupEnvoyConfigWriter env g podName (handleNamespace g)).2 = .error err →
        run.result = some err) := by
  have hs : ¬ g.outputFormat = summaryOutput := hshort
  have hj : ¬ g.outputFormat = jsonOutput := hjson
  cases hsetup : (setupEnvoyConfigWriter env g podName (handleNamespace g)).2 with
  | error err =>
    obtain ⟨hc, hl, hr, _⟩ := runE_of_setup_error env g podName [] err hsetup
    refine ⟨_, hc, hl, hr, ?_, ⟨err, rfl⟩, ?_, ?_⟩
    · exact setup_calls_no_presenter env g podName (handleNamespace g)
    · intro cw h
      cases h
    · intro err1 h
      cases h
      rfl
  | ok cw =>
    have hc := cluster_runE_of_setup_ok env g podName [] cw hsetup
    have hl := listener_runE_of_setup_ok env g podName [] cw hsetup
    have hr := route_runE_of_setup_ok env g podName [] cw hsetup
    rw [if_neg hs, if_neg hj] at hc hl hr
    refine ⟨_, hc, hl, hr, ?_, ⟨_, rfl⟩, ?_, ?_⟩
    · exact setup_calls_no_presenter env g podName (handleNamespace g)
    · intro cw1 _
      rfl
    · intro err h
      cases h

/-- C1, witness: `-o xml` against an environment in which every callee
succeeds. -/
theorem unsupported_format_renders_nothing_witness :
    ∃ run : Run,
      clusterConfigCmd_RunE okEnv xmlGlobals ["details-v1"] = some run ∧
      listenerConfigCmd_RunE okEnv xmlGlobals ["details-v1"] = some run ∧
      routeConfigCmd_RunE okEnv xmlGlobals ["details-v1"] = some run ∧
      run.presented = [] ∧
      (∃ err, run.result = some err) ∧
      (∀ cw, (setupEnvoyConfigWriter okEnv xmlGlobals "details-v1"
          (handleNamespace xmlGlobals)).2 = .ok cw →
        run.result
          = some (GoError.Errorf "output format %q not supported" xmlGlobals.outputFormat)) ∧
      (∀ err, (setupEnvoyConfigWriter okEnv xmlGlobals "details-v1"
          (handleNamespace xmlGlobals)).2 = .error err →
        run.result = some err) :=
  unsupported_format_renders_nothing okEnv xmlGlobals "details-v1" (by decide) (by decide)

/-- C2, counterexample: with `-o xml` and every callee succeeding, the cluster,
listener and route commands have created the kube client, issued the
`EnvoyDo` GET and called `Prime` by the time they return the
unsupported-output-format error. -/
theorem unsupported_format_before_fetch_counterexample :
    clusterConfigCmd_RunE okEnv xmlGlobals ["details-v1"]
      = some { calls := [Call.NewClient "" "",
                         Call.EnvoyDo "details-v1" "default" "GET" "config_dump" none,
                         Call.Prime [123, 125]],
               result := some (GoError.Errorf "output format %q not supported" "xml") } ∧
    listenerConfigCmd_RunE okEnv xmlGlobals ["details-v1"]
      = some { calls := [Call.NewClient "" "",
                         Call.EnvoyDo "details-v1" "default" "GET" "config_dump" none,
                         Call.Prime [123, 125]],
               result := some (GoError.Errorf "output format %q not supported" "xml") } ∧
    routeConfigCmd_RunE okEnv xmlGlobals ["details-v1"]
      = some { calls := [Call.NewClient "" "",
                         Call.EnvoyDo "details-v1" "default" "GET" "config_dump" none,
                         Call.Prime [123, 125]],
               result := some (GoError.Errorf "output format %q not supported" "xml") } := by
  decide

/-- C2, amended: an unsupported output format is detected only after the
remote fetch.  For every output format that is neither `short` nor `json`, the
cluster, listener and route commands make exactly the calls of
`setupEnvoyConfigWriter`, the first of which creates the kube client; they
return the unsupported-output-format error exactly when
`setupEnvoyConfigWriter` succeeded, and by then the client creation, the
`EnvoyDo` GET and `Prime` have all been called. -/
theorem unsupported_format_detected_after_fetch (env : Env) (g : Globals) (podName : String)
    (hshort : g.outputFormat ≠ "short") (hjson : g.outputFormat ≠ "json") :
    ∃ run : Run,
      clusterConfigCmd_RunE env g [podName] = some run ∧
      listenerConfigCmd_RunE env g [podName] = some run ∧
      routeConfigCmd_RunE env g [podName] = some run ∧
      run.calls = (setupEnvoyConfigWriter env g podName (handleNamespace g)).1 ∧
      (∃ rest, run.calls = Call.NewClient g.kubeconfig g.configContext :: rest) ∧
      (run.result = some (GoError.Errorf "output format %q not supported" g.outputFormat) ↔
        ∃ cw, (setupEnvoyConfigWriter env g podName (handleNamespace g)).2 = .ok cw) ∧
      (run.result = some (GoError.Errorf "output format %q not supported" g.outputFormat) →
        ∃ debug, run.calls
          = [Call.NewClient g.kubeconfig g.configContext,
             Call.EnvoyDo podName (handleNamespace g) "GET" "config_dump" none,
             Call.Prime debug]) := by
  have hs : ¬ g.outputFormat = summaryOutput := hshort
  have hj : ¬ g.outputFormat = jsonOutput := hjson
  cases hsetup : (setupEnvoyConfigWriter env g podName (handleNamespace g)).2 with
  | error err =>
    obtain ⟨hc, hl, hr, _⟩ := runE_of_setup_error env g podName [] err hsetup
    have hne : err ≠ GoError.Errorf "output format %q not supported" g.outputFormat :=
      setup_error_ne_Errorf env g podName (handleNamespace g) err hsetup _ _
    refine ⟨_, hc, hl, hr, rfl, setup_calls_head env g podName (handleNamespace g), ?_, ?_⟩
    · constructor
      · intro h
        exact absurd (Option.some.inj h) hne
      · rintro ⟨cw, h⟩
        cases h
    · intro h
      exact absurd (Option.some.inj h) hne
  | ok cw =>
    have hc := cluster_runE_of_setup_ok env g podName [] cw hsetup
    have hl := listener_runE_of_setup_ok env g podName [] cw hsetup
    have hr := route_runE_of_setup_ok env g podName [] cw hsetup
    rw [if_neg hs, if_neg hj] at hc hl hr
    refine ⟨_, hc, hl, hr, rfl, setup_calls_head env g podName (handleNamespace g), ?_, ?_⟩
    · exact ⟨fun _ => ⟨cw, rfl⟩, fun _ => rfl⟩
    · intro _
      exact setup_calls_of_ok env g podName (handleNamespace g) cw hsetup

/-- C2, witness: `-o xml` against an environment whose pod cannot be reached. -/
theorem unsupported_format_detected_after_fetch_witness :
    ∃ run : Run,
      clusterConfigCmd_RunE noPodEnv xmlGlobals ["details-v1"] = some run ∧
      listenerConfigCmd_RunE noPodEnv xmlGlobals ["details-v1"] = some run ∧
      routeConfigCmd_RunE noPodEnv xmlGlobals ["details-v1"] = some run ∧
      run.calls = (setupEnvoyConfigWriter noPodEnv xmlGlobals "details-v1"
        (handleNamespace xmlGlobals)).1 ∧
      (∃ rest, run.calls
        = Call.NewClient xmlGlobals.kubeconfig xmlGlobals.configContext :: rest) ∧
      (run.result
          = some (GoError.Errorf "output format %q not supported" xmlGlobals.outputFormat) ↔
        ∃ cw, (setupEnvoyConfigWriter noPodEnv xmlGlobals "details-v1"
          (handleNamespace xmlGlobals)).2 = .ok cw) ∧
      (run.result
          = some (GoError.Errorf "output format %q not supported" xmlGlobals.outputFormat) →
        ∃ debug, run.calls
          = [Call.NewClient xmlGlobals.kubeconfig xmlGlobals.configContext,
             Call.EnvoyDo "details-v1" (handleNamespace xmlGlobals) "GET" "config_dump" none,
             Call.Prime debug]) :=
  unsupported_format_detected_after_fetch noPodEnv xmlGlobals "details-v1"
    (by decide) (by decide)

/-! ## Supported output formats -/

/-- C3, counterexample: the default registered for the output flag is not
`summary`, and with `-o summary` and every callee succeeding the cluster
command calls no presenter and returns the unsupported-output-format error. -/
theorem summary_default_counterexample :
    (init plainGlobals).outputFormat ≠ "summary" ∧
    clusterConfigCmd_RunE okEnv summaryGlobals ["details-v1"]
      = some { calls := [Call.NewClient "" "",
                         Call.EnvoyDo "details-v1" "default" "GET" "config_dump" none,
                         Call.Prime [123, 125]],
               result := some (GoError.Errorf "output format %q not supported" "summary") } := by
  decide

/-- C3, amended: the output-mode selector takes the values `short` and `json`
with `short` as the default.  The default that `init` registers for the flag
is `short`; with the output format set to `short` each of the cluster,
listener and route commands, once `setupEnvoyConfigWriter` has succeeded, ends
with a call of its Summary presenter and returns that presenter's result
(`nil` when the presenter returned `nil`, its error when it returned one); and
after a successful `setupEnvoyConfigWriter` a command returns the
unsupported-output-format error exactly for the values other than `short` and
`json`. -/
theorem short_default_selects_summary (env : Env) (g : Globals) (podName : String)
    (cw : ConfigWriter)
    (hsetup : (setupEnvoyConfigWriter env g podName (handleNamespace g)).2 = .ok cw) :
    (∀ g0 : Globals, (init g0).outputFormat = "short") ∧
    (g.outputFormat = "short" →
      clusterConfigCmd_RunE env g [podName]
        = some { calls := (setupEnvoyConfigWriter env g podName (handleNamespace g)).1
                   ++ [Call.PrintClusterSummary (clusterFilter g)],
                 result := (env.PrintClusterSummary cw (clusterFilter g)).map GoError.callee } ∧
      listenerConfigCmd_RunE env g [podName]
        = some { calls := (setupEnvoyConfigWriter env g podName (handleNamespace g)).1
                   ++ [Call.PrintListenerSummary (listenerFilter g)],
                 result := (env.PrintListenerSummary cw (listenerFilter g)).map GoError.callee } ∧
      routeConfigCmd_RunE env g [podName]
        = some { calls := (setupEnvoyConfigWriter env g podName (handleNamespace g)).1
                   ++ [Call.PrintRouteSummary (routeFilter g)],
                 result := (env.PrintRouteSummary cw (routeFilter g)).map GoError.callee }) ∧
    (∀ run, clusterConfigCmd_RunE env g [podName] = some run →
      (run.result = some (GoError.Errorf "output format %q not supported" g.outputFormat) ↔
        g.outputFormat ≠ "short" ∧ g.outputFormat ≠ "json")) ∧
    (∀ run, listenerConfigCmd_RunE env g [podName] = some run →
      (run.result = some (GoError.Errorf "output format %q not supported" g.outputFormat) ↔
        g.outputFormat ≠ "short" ∧ g.outputFormat ≠ "json")) ∧
    (∀ run, routeConfigCmd_RunE env g [podName] = some run →
      (run.result = some (GoError.Errorf "output format %q not supported" g.outputFormat) ↔
        g.outputFormat ≠ "short" ∧ g.outputFormat ≠ "json")) := by
  have hmap : ∀ r : Option String, presenterError r = r.map GoError.callee := by
    intro r
    cases r <;> rfl
  have hc := cluster_runE_of_setup_ok env g podName [] cw hsetup
  have hl := listener_runE_of_setup_ok env g podName [] cw hsetup
  have hr := route_runE_of_setup_ok env g podName [] cw hsetup
  refine ⟨fun _ => rfl, ?_, ?_, ?_, ?_⟩
  · intro hfmt
    have hs : g.outputFormat = summaryOutput := hfmt
    rw [if_pos hs, hmap] at hc hl hr
    exact ⟨hc, hl, hr⟩
  · intro run hrun
    rw [hc] at hrun
    exact dispatch_result_iff _ _ _ _ _ _ run hrun
  · intro run hrun
    rw [hl] at hrun
    exact dispatch_result_iff _ _ _ _ _ _ run hrun
  · intro run hrun
    rw [hr] at hrun
    exact dispatch_result_iff _ _ _ _ _ _ run hrun

/-- C3, witness: no flag given, so the output format is `short`.  With every
callee succeeding the cluster command ends with `PrintClusterSummary` and
returns `nil`; with a presenter that fails it returns the presenter's
error. -/
theorem short_default_selects_summary_witness :
    plainGlobals.outputFormat = "short" ∧
    clusterConfigCmd_RunE okEnv plainGlobals ["details-v1"]
      = some { calls := [Call.NewClient "" "",
                         Call.EnvoyDo "details-v1" "default" "GET" "config_dump" none,
                         Call.Prime [123, 125],
                         Call.PrintClusterSummary
                           { FQDN := "", Port := 0, Subset := "", Direction := "" }],
               result := none } ∧
    clusterConfigCmd_RunE failingPresenterEnv plainGlobals ["details-v1"]
      = some { calls := [Call.NewClient "" "",
                         Call.EnvoyDo "details-v1" "default" "GET" "config_dump" none,
                         Call.Prime [123, 125],
                         Call.PrintClusterSummary
                           { FQDN := "", Port := 0, Subset := "", Direction := "" }],
               result := some (GoError.callee "write failed") } :=
  ⟨rfl,
    ((short_default_selects_summary okEnv plainGlobals "details-v1"
      { Stdout := osStdout, configDump := some [123, 125] } rfl).2.1 rfl).1,
    ((short_default_selects_summary failingPresenterEnv plainGlobals "details-v1"
      { Stdout := osStdout, configDump := some [123, 125] } rfl).2.1 rfl).1⟩

/-- C4: exactly one rendering strategy is active per invocation.  Once
`setupEnvoyConfigWriter` has succeeded, each of the cluster, listener and
route commands makes exactly one presenter call: with the output format
`summaryOutput` it is the kind's `Print*Summary`, with `jsonOutput` it is the
kind's `Print*Dump`, in both cases on the filter the command built, and what
the presenter returns is what the command returns: `nil` when the presenter
returned `nil`, and the presenter's own error when it returned one. -/
theorem one_presenter_call_per_invocation (env : Env) (g : Globals) (podName : String)
    (cw : ConfigWriter)
    (hsetup : (setupEnvoyConfigWriter env g podName (handleNamespace g)).2 = .ok cw) :
    (g.outputFormat = summaryOutput →
      ∃ run, clusterConfigCmd_RunE env g [podName] = some run ∧
        run.presented = [Call.PrintClusterSummary (clusterFilter g)] ∧
        run.result = (env.PrintClusterSummary cw (clusterFilter g)).map GoError.callee) ∧
    (g.outputFormat = jsonOutput →
      ∃ run, clusterConfigCmd_RunE env g [podName] = some run ∧
        run.presented = [Call.PrintClusterDump (clusterFilter g)] ∧
        run.result = (env.PrintClusterDump cw (clusterFilter g)).map GoError.callee) ∧
    (g.outputFormat = summaryOutput →
      ∃ run, listenerConfigCmd_RunE env g [podName] = some run ∧
        run.presented = [Call.PrintListenerSummary (listenerFilter g)] ∧
        run.result = (env.PrintListenerSummary cw (listenerFilter g)).map GoError.callee) ∧
    (g.outputFormat = jsonOutput →
      ∃ run, listenerConfigCmd_RunE env g [podName] = some run ∧
        run.presented = [Call.PrintListenerDump (listenerFilter g)] ∧
        run.result = (env.PrintListenerDump cw (listenerFilter g)).map GoError.callee) ∧
    (g.outputFormat = summaryOutput →
      ∃ run, routeConfigCmd_RunE env g [podName] = some run ∧
        run.presented = [Call.PrintRouteSummary (routeFilter g)] ∧
        run.result = (env.PrintRouteSummary cw (routeFilter g)).map GoError.callee) ∧
    (g.outputFormat = jsonOutput →
      ∃ run, routeConfigCmd_RunE env g [podName] = some run ∧
        run.presented = [Call.PrintRouteDump (routeFilter g)] ∧
        run.result = (env.PrintRouteDump cw (routeFilter g)).map GoError.callee) := by
  have hmap : ∀ r : Option String, presenterError r = r.map GoError.callee := by
    intro r
    cases r <;> rfl
  have hc := cluster_runE_of_setup_ok env g podName [] cw hsetup
  have hl := listener_runE_of_setup_ok env g podName [] cw hsetup
  have hr := route_runE_of_setup_ok env g podName [] cw hsetup
  have hsj : summaryOutput ≠ jsonOutput := by decide
  refine ⟨?_, ?_, ?_, ?_, ?_, ?_⟩
  · intro hs
    rw [if_pos hs] at hc
    exact ⟨_, hc, presented_setup_append env g podName _ _ (by rfl) _,
      hmap _⟩
  · intro hj
    have hs : ¬ g.outputFormat = summaryOutput := fun h => hsj (h.symm.trans hj)
    rw [if_neg hs, if_pos hj] at hc
    exact ⟨_, hc, presented_setup_append env g podName _ _ (by rfl) _,
      hmap _⟩
  · intro hs
    rw [if_pos hs] at hl
    exact ⟨_, hl, presented_setup_append env g podName _ _ (by rfl) _,
      hmap _⟩
  · intro hj
    have hs : ¬ g.outputFormat = summaryOutput := fun h => hsj (h.symm.trans hj)
    rw [if_neg hs, if_pos hj] at hl
    exact ⟨_, hl, presented_setup_append env g podName _ _ (by rfl) _,
      hmap _⟩
  · intro hs
    rw [if_pos hs] at hr
    exact ⟨_, hr, presented_setup_append env g podName _ _ (by rfl) _,
      hmap _⟩
  · intro hj
    have hs : ¬ g.outputFormat = summaryOutput := fun h => hsj (h.symm.trans hj)
    rw [if_neg hs, if_pos hj] at hr
    exact ⟨_, hr, presented_setup_append env g podName _ _ (by rfl) _,
      hmap _⟩

/-- C4, witness: `-o json` against an environment whose presenters fail: the
listener command makes the one presenter call `PrintListenerDump` and returns
the error that call returned; against an environment whose presenters
succeed the cluster command, with no flag given, makes the one presenter call
`PrintClusterSummary` and returns `nil`. -/
theorem one_presenter_call_per_invocation_witness :
    (jsonGlobals.outputFormat = jsonOutput ∧
      ∃ run, listenerConfigCmd_RunE failingPresenterEnv jsonGlobals ["details-v1"] = some run ∧
        run.presented
          = [Call.PrintListenerDump { Address := "", Port := 0, Type_ := "" }] ∧
        run.result = some (GoError.callee "write failed")) ∧
    (plainGlobals.outputFormat = summaryOutput ∧
      ∃ run, clusterConfigCmd_RunE okEnv plainGlobals ["details-v1"] = some run ∧
        run.presented
          = [Call.PrintClusterSummary
              { FQDN := "", Port := 0, Subset := "", Direction := "" }] ∧
        run.result = none) :=
  ⟨⟨rfl, (one_presenter_call_per_invocation failingPresenterEnv jsonGlobals "details-v1"
      { Stdout := osStdout, configDump := some [123, 125] } rfl).2.2.2.1 rfl⟩,
   ⟨rfl, (one_presenter_call_per_invocation okEnv plainGlobals "details-v1"
      { Stdout := osStdout, configDump := some [123, 125] } rfl).1 rfl⟩⟩

/-! ## Filters -/

/-- C5: the filter handed to the presenter is built field for field from the
flag variables.  The cluster filter has `FQDN`, `Port`, `Subset` and
`Direction` equal to the flags `fqdn`, `port`, `subset` and `direction`; the
listener filter has `Address` and `Type` equal to `address` and `listenerType`
and `Port` equal to `uint32(port)`; the route filter has `Name` equal to
`routeName`; every filter found in a presenter call of a run is that filter;
and with the defaults that `init` registers (whatever the output format)
every criterion is at its unset value, `""` or `0`. -/
theorem filters_built_from_flags (env : Env) (g : Globals) (podName : String) :
    ((clusterFilter g).FQDN = g.fqdn ∧ (clusterFilter g).Port = g.port ∧
      (clusterFilter g).Subset = g.subset ∧ (clusterFilter g).Direction = g.direction) ∧
    ((listenerFilter g).Address = g.address ∧ (listenerFilter g).Type_ = g.listenerType ∧
      (listenerFilter g).Port = uint32 g.port) ∧
    (routeFilter g).Name = g.routeName ∧
    (∀ run f, clusterConfigCmd_RunE env g [podName] = some run →
      Call.PrintClusterSummary f ∈ run.calls ∨ Call.PrintClusterDump f ∈ run.calls →
      f = clusterFilter g) ∧
    (∀ run f, listenerConfigCmd_RunE env g [podName] = some run →
      Call.PrintListenerSummary f ∈ run.calls ∨ Call.PrintListenerDump f ∈ run.calls →
      f = listenerFilter g) ∧
    (∀ run f, routeConfigCmd_RunE env g [podName] = some run →
      Call.PrintRouteSummary f ∈ run.calls ∨ Call.PrintRouteDump f ∈ run.calls →
      f = routeFilter g) ∧
    (∀ fmt : String,
      clusterFilter { init g with outputFormat := fmt }
        = { FQDN := "", Port := 0, Subset := "", Direction := "" } ∧
      listenerFilter { init g with outputFormat := fmt }
        = { Address := "", Port := 0, Type_ := "" } ∧
      routeFilter { init g with outputFormat := fmt } = { Name := "" }) := by
  exact ⟨⟨rfl, rfl, rfl, rfl⟩, ⟨rfl, rfl, rfl⟩, rfl,
    fun run f hrun hmem => cluster_filter_of_mem env g podName run f hrun hmem,
    fun run f hrun hmem => listener_filter_of_mem env g podName run f hrun hmem,
    fun run f hrun hmem => route_filter_of_mem env g podName run f hrun hmem,
    fun _ => ⟨rfl, rfl, rfl⟩⟩

/-- C5, witness: every filter flag given, every callee succeeding: the filter
in the presenter call of the cluster command is the one built from the
flags. -/
theorem filters_built_from_flags_witness :
    clusterConfigCmd_RunE okEnv filteredGlobals ["details-v1"]
      = some { calls := [Call.NewClient "" "",
                         Call.EnvoyDo "details-v1" "default" "GET" "config_dump" none,
                         Call.Prime [123, 125],
                         Call.PrintClusterSummary
                           { FQDN := "details.default.svc.cluster.local", Port := 9080,
                             Subset := "v1", Direction := "inbound" }],
               result := none } ∧
    ({ FQDN := "details.default.svc.cluster.local", Port := 9080,
       Subset := "v1", Direction := "inbound" } : ClusterFilter)
      = clusterFilter filteredGlobals :=
  ⟨rfl, (filters_built_from_flags okEnv filteredGlobals "details-v1").2.2.2.1 _ _ rfl
    (Or.inl (by decide))⟩

/-! ## Failures of the fetch -/

/-- C6: any step's failure aborts the remaining steps and is surfaced
verbatim.  If the kube client creation fails, `setupEnvoyConfigWriter` returns
`(nil, err)` having called neither `EnvoyDo` nor `Prime`; if `EnvoyDo` fails
it returns `(nil, err)` having not called `Prime`; if `Prime` fails it returns
`(nil, err)`; and whenever `setupEnvoyConfigWriter` returns an error, each of
the four commands returns that very error, having made the calls of
`setupEnvoyConfigWriter` and nothing else: no filter reaches a presenter. -/
theorem setup_failure_aborts (env : Env) (g : Globals) (podName podNamespace : String) :
    (∀ err, env.NewClient g.kubeconfig g.configContext = .error err →
      setupEnvoyConfigWriter env g podName podNamespace
        = ([Call.NewClient g.kubeconfig g.configContext], .error (GoError.callee err))) ∧
    (∀ kubeClient err, env.NewClient g.kubeconfig g.configContext = .ok kubeClient →
      env.EnvoyDo kubeClient podName podNamespace "GET" "config_dump" none = .error err →
      setupEnvoyConfigWriter env g podName podNamespace
        = ([Call.NewClient g.kubeconfig g.configContext,
            Call.EnvoyDo podName podNamespace "GET" "config_dump" none],
           .error (GoError.callee err))) ∧
    (∀ kubeClient debug err, env.NewClient g.kubeconfig g.configContext = .ok kubeClient →
      env.EnvoyDo kubeClient podName podNamespace "GET" "config_dump" none = .ok debug →
      env.Prime { Stdout := osStdout, configDump := none } debug = .error err →
      setupEnvoyConfigWriter env g podName podNamespace
        = ([Call.NewClient g.kubeconfig g.configContext,
            Call.EnvoyDo podName podNamespace "GET" "config_dump" none,
            Call.Prime debug],
           .error (GoError.callee err))) ∧
    (∀ err, (setupEnvoyConfigWriter env g podName (handleNamespace g)).2 = .error err →
      ∃ run : Run,
        clusterConfigCmd_RunE env g [podName] = some run ∧
        listenerConfigCmd_RunE env g [podName] = some run ∧
        routeConfigCmd_RunE env g [podName] = some run ∧
        bootstrapConfigCmd_RunE env g [podName] = some run ∧
        run.result = some err ∧
        run.calls = (setupEnvoyConfigWriter env g podName (handleNamespace g)).1 ∧
        run.presented = []) := by
  refine ⟨?_, ?_, ?_, ?_⟩
  · intro err h
    simp [setupEnvoyConfigWriter, h]
  · intro kubeClient err h1 h2
    simp [setupEnvoyConfigWriter, h1, h2]
  · intro kubeClient debug err h1 h2 h3
    simp [setupEnvoyConfigWriter, h1, h2, h3]
  · intro err h
    obtain ⟨hc, hl, hr, hb⟩ := runE_of_setup_error env g podName [] err h
    exact ⟨_, hc, hl, hr, hb, rfl, rfl,
      setup_calls_no_presenter env g podName (handleNamespace g)⟩

/-- C6, witness: a dump that does not parse: `Prime` fails after the client
creation and the request, and the bootstrap command returns its error. -/
theorem setup_failure_aborts_witness :
    setupEnvoyConfigWriter badDumpEnv plainGlobals "details-v1" "default"
      = ([Call.NewClient "" "",
          Call.EnvoyDo "details-v1" "default" "GET" "config_dump" none,
          Call.Prime [123, 125]],
         .error (GoError.callee "unexpected end of JSON input")) ∧
    ∃ run : Run,
      clusterConfigCmd_RunE badDumpEnv plainGlobals ["details-v1"] = some run ∧
      listenerConfigCmd_RunE badDumpEnv plainGlobals ["details-v1"] = some run ∧
      routeConfigCmd_RunE badDumpEnv plainGlobals ["details-v1"] = some run ∧
      bootstrapConfigCmd_RunE badDumpEnv plainGlobals ["details-v1"] = some run ∧
      run.result = some (GoError.callee "unexpected end of JSON input") ∧
      run.calls = (setupEnvoyConfigWriter badDumpEnv plainGlobals "details-v1"
        (handleNamespace plainGlobals)).1 ∧
      run.presented = [] :=
  ⟨(setup_failure_aborts badDumpEnv plainGlobals "details-v1" "default").2.2.1
      { handle := 7 } [123, 125] "unexpected end of JSON input" rfl rfl rfl,
   (setup_failure_aborts badDumpEnv plainGlobals "details-v1" "default").2.2.2
      (GoError.callee "unexpected end of JSON input") rfl⟩

/-! ## Namespace resolution -/

/-- C7: namespace resolution falls back to the configured default only when
the namespace is unspecified.  `handleNamespace` returns `defaultNamespace`
when the namespace option is the empty string (`v1.NamespaceAll`) and the
namespace option itself for every other value; in a run of any of the four
commands every `EnvoyDo` call carries the pod name given as the single
argument and the namespace `handleNamespace` returned, and such a call is made
as soon as the kube client could be created. -/
theorem namespace_fallback (env : Env) (g : Globals) (podName : String) :
    NamespaceAll = "" ∧
    (g.namespace_ = "" → handleNamespace g = g.defaultNamespace) ∧
    (g.namespace_ ≠ "" → handleNamespace g = g.namespace_) ∧
    (∀ run : Run,
      (clusterConfigCmd_RunE env g [podName] = some run ∨
        listenerConfigCmd_RunE env g [podName] = some run ∨
        routeConfigCmd_RunE env g [podName] = some run ∨
        bootstrapConfigCmd_RunE env g [podName] = some run) →
      (∀ p ns m path body, Call.EnvoyDo p ns m path body ∈ run.calls →
        p = podName ∧ ns = handleNamespace g) ∧
      (∀ kubeClient, env.NewClient g.kubeconfig g.configContext = .ok kubeClient →
        Call.EnvoyDo podName (handleNamespace g) "GET" "config_dump" none ∈ run.calls)) := by
  refine ⟨rfl, ?_, ?_, ?_⟩
  · intro h
    simp [handleNamespace, NamespaceAll, h]
  · intro h
    simp [handleNamespace, NamespaceAll, h]
  · intro run hrun
    have hshape := runE_calls_shape env g podName run hrun
    constructor
    · intro p ns m path body hmem
      have hin : Call.EnvoyDo p ns m path body
          ∈ (setupEnvoyConfigWriter env g podName (handleNamespace g)).1 := by
        rcases hshape with hcalls | ⟨d, hd, hcalls⟩
        · rw [hcalls] at hmem
          exact hmem
        · rw [hcalls, List.mem_append] at hmem
          rcases hmem with hmem | hmem
          · exact hmem
          · rw [List.mem_singleton] at hmem
            subst hmem
            cases hd
      have := setup_calls_envoyDo env g podName (handleNamespace g) p ns m path body hin
      exact ⟨this.1, this.2.1⟩
    · intro kubeClient hclient
      have hin := setup_calls_mem_envoyDo env g podName (handleNamespace g) kubeClient hclient
      rcases hshape with hcalls | ⟨d, _, hcalls⟩
      · rw [hcalls]
        exact hin
      · rw [hcalls]
        exact List.mem_append_left _ hin

/-- C7, witness: with `-n istio-system` the request goes to that namespace,
the configured default being `default`. -/
theorem namespace_fallback_witness :
    namespacedGlobals.namespace_ ≠ "" ∧
    handleNamespace namespacedGlobals = "istio-system" ∧
    Call.EnvoyDo "details-v1" "istio-system" "GET" "config_dump" none
      ∈ [Call.NewClient "" "",
         Call.EnvoyDo "details-v1" "istio-system" "GET" "config_dump" none,
         Call.Prime [123, 125],
         Call.PrintBootstrapDump] :=
  ⟨by decide,
   (namespace_fallback okEnv namespacedGlobals "details-v1").2.2.1 (by decide),
   ((namespace_fallback okEnv namespacedGlobals "details-v1").2.2.2
      { calls := [Call.NewClient "" "",
                  Call.EnvoyDo "details-v1" "istio-system" "GET" "config_dump" none,
                  Call.Prime [123, 125],
                  Call.PrintBootstrapDump],
        result := none }
      (Or.inr (Or.inr (Or.inr rfl)))).2 { handle := 7 } rfl⟩

/-! ## Bootstrap -/

/-- C8: bootstrap has a dump-only presentation.  The bootstrap command does not
read the output format: for every value of it the run is the same.  Once
`setupEnvoyConfigWriter` has succeeded the command makes the one presenter
call `PrintBootstrapDump`, which takes no filter, and returns its result
(`nil` when it returned `nil`, its error when it returned one); in no run does it call any other presenter, and in no run does it return an
error built by `fmt.Errorf`, the unsupported-output-format error included. -/
theorem bootstrap_dump_only (env : Env) (g : Globals) (podName fmt : String) :
    bootstrapConfigCmd_RunE env { g with outputFormat := fmt } [podName]
      = bootstrapConfigCmd_RunE env g [podName] ∧
    (∀ cw, (setupEnvoyConfigWriter env g podName (handleNamespace g)).2 = .ok cw →
      ∃ run, bootstrapConfigCmd_RunE env { g with outputFormat := fmt } [podName] = some run ∧
        run.presented = [Call.PrintBootstrapDump] ∧
        run.result = (env.PrintBootstrapDump cw).map GoError.callee) ∧
    (∀ run, bootstrapConfigCmd_RunE env { g with outputFormat := fmt } [podName] = some run →
      (∀ c ∈ run.calls, c.isPresenter = true → c = Call.PrintBootstrapDump) ∧
      (∀ format operand, run.result ≠ some (GoError.Errorf format operand))) := by
  have hmap : ∀ r : Option String, presenterError r = r.map GoError.callee := by
    intro r
    cases r <;> rfl
  have hfmt : bootstrapConfigCmd_RunE env { g with outputFormat := fmt } [podName]
      = bootstrapConfigCmd_RunE env g [podName] := rfl
  rw [hfmt]
  refine ⟨rfl, ?_, ?_⟩
  · intro cw hsetup
    exact ⟨_, bootstrap_runE_of_setup_ok env g podName [] cw hsetup,
      presented_setup_append env g podName _ _ (by rfl) _,
      hmap _⟩
  · intro run hrun
    cases hsetup : (setupEnvoyConfigWriter env g podName (handleNamespace g)).2 with
    | error err =>
      rw [(runE_of_setup_error env g podName [] err hsetup).2.2.2] at hrun
      cases hrun
      constructor
      · intro c hc hp
        exact absurd hc (presenter_not_mem_setup env g podName _ c hp)
      · intro format operand h
        exact setup_error_ne_Errorf env g podName _ err hsetup format operand
          (Option.some.inj h)
    | ok cw =>
      rw [bootstrap_runE_of_setup_ok env g podName [] cw hsetup] at hrun
      cases hrun
      constructor
      · intro c hc hp
        exact presenter_mem_setup_append env g podName _ c _ hp hc
      · intro format operand
        exact presenterError_ne_Errorf _ format operand

/-- C8, witness: `-o xml`, which the other commands reject.  With every callee
succeeding the bootstrap command dumps and returns `nil`; with a presenter
that fails it returns the error of `PrintBootstrapDump`. -/
theorem bootstrap_dump_only_witness :
    (∃ run, bootstrapConfigCmd_RunE okEnv { plainGlobals with outputFormat := "xml" }
        ["details-v1"] = some run ∧
      run.presented = [Call.PrintBootstrapDump] ∧
      run.result = none) ∧
    (∃ run, bootstrapConfigCmd_RunE failingPresenterEnv
        { plainGlobals with outputFormat := "xml" } ["details-v1"] = some run ∧
      run.presented = [Call.PrintBootstrapDump] ∧
      run.result = some (GoError.callee "write failed")) :=
  ⟨(bootstrap_dump_only okEnv plainGlobals "details-v1" "xml").2.1
      { Stdout := osStdout, configDump := some [123, 125] } rfl,
   (bootstrap_dump_only failingPresenterEnv plainGlobals "details-v1" "xml").2.1
      { Stdout := osStdout, configDump := some [123, 125] } rfl⟩

/-! ## The cluster criteria -/

/-- C9: a cluster entry is selected iff all non-empty criteria of the cluster
filter match, a conjunction and never a disjunction: FQDN and Subset match
when the entry's field contains the given text, Port and Direction match only
on equality, and a criterion left at `""` or `0` is always satisfied.  Over
the two clusters of the scenario, any filter the cluster command hands to a
presenter when run with `--fqdn a.default` and all other filter flags unset
selects exactly the first cluster; and a filter asking for FQDN `a.default`
and direction `outbound`, each of which one of the two clusters satisfies,
selects neither. -/
theorem cluster_filter_conjunction :
    (∀ (f : ClusterFilter) (e : ClusterEntry),
      f.Verify e = true ↔
        (f.FQDN = "" ∨ f.FQDN.toList <:+: e.name.toList) ∧
        (f.Port = 0 ∨ e.port = f.Port) ∧
        (f.Subset = "" ∨ f.Subset.toList <:+: e.subset.toList) ∧
        (f.Direction = "" ∨ e.direction = f.Direction)) ∧
    (∀ (env : Env) (g : Globals) (podName : String) (run : Run) (f : ClusterFilter),
      g.fqdn = "a.default" → g.port = 0 → g.subset = "" → g.direction = "" →
      clusterConfigCmd_RunE env g [podName] = some run →
      Call.PrintClusterSummary f ∈ run.calls ∨ Call.PrintClusterDump f ∈ run.calls →
      [clusterA, clusterB].filter f.Verify = [clusterA]) ∧
    [clusterA, clusterB].filter
      (ClusterFilter.Verify
        { FQDN := "a.default", Port := 0, Subset := "", Direction := "outbound" }) = [] := by
  refine ⟨?_, ?_, by decide⟩
  · intro f e
    unfold ClusterFilter.Verify
    by_cases h1 : f.FQDN = ""
    · by_cases h2 : f.Port = 0
      · by_cases h3 : f.Subset = ""
        · by_cases h4 : f.Direction = ""
          · simp [h1, h2, h3, h4]
          · simp [h1, h2, h3, h4]
        · by_cases h4 : f.Direction = ""
          · simp [h1, h2, h3, h4, containsText_iff]
          · simp [h1, h2, h3, h4, containsText_iff]
      · by_cases h3 : f.Subset = ""
        · by_cases h4 : f.Direction = ""
          · simp [h1, h2, h3, h4]
          · simp [h1, h2, h3, h4]
        · by_cases h4 : f.Direction = ""
          · simp [h1, h2, h3, h4, containsText_iff]
          · simp [h1, h2, h3, h4, containsText_iff]
    · by_cases h2 : f.Port = 0
      · by_cases h3 : f.Subset = ""
        · by_cases h4 : f.Direction = ""
          · simp [h1, h2, h3, h4, containsText_iff]
          · simp [h1, h2, h3, h4, containsText_iff]
        · by_cases h4 : f.Direction = ""
          · simp [h1, h2, h3, h4, containsText_iff]
          · simp [h1, h2, h3, h4, containsText_iff]
      · by_cases h3 : f.Subset = ""
        · by_cases h4 : f.Direction = ""
          · simp [h1, h2, h3, h4, containsText_iff]
          · simp [h1, h2, h3, h4, containsText_iff]
        · by_cases h4 : f.Direction = ""
          · simp [h1, h2, h3, h4, containsText_iff]
          · simp [h1, h2, h3, h4, containsText_iff]
  · intro env g podName run f hfqdn hport hsubset hdirection hrun hmem
    have hf := cluster_filter_of_mem env g podName run f hrun hmem
    have hf1 : f = { FQDN := "a.default", Port := 0, Subset := "", Direction := "" } := by
      rw [hf]
      simp [clusterFilter, hfqdn, hport, hsubset, hdirection]
    rw [hf1]
    decide

/-- C9, witness: the cluster command run with `--fqdn a.default`, every callee
succeeding, hands `PrintClusterSummary` a filter that selects exactly the
first cluster. -/
theorem cluster_filter_conjunction_witness :
    clusterConfigCmd_RunE okEnv fqdnGlobals ["details-v1"]
      = some { calls := [Call.NewClient "" "",
                         Call.EnvoyDo "details-v1" "default" "GET" "config_dump" none,
                         Call.Prime [123, 125],
                         Call.PrintClusterSummary
                           { FQDN := "a.default", Port := 0, Subset := "", Direction := "" }],
               result := none } ∧
    [clusterA, clusterB].filter
      (ClusterFilter.Verify { FQDN := "a.default", Port := 0, Subset := "", Direction := "" })
      = [clusterA] :=
  ⟨rfl, cluster_filter_conjunction.2.1 okEnv fqdnGlobals "details-v1" _
    { FQDN := "a.default", Port := 0, Subset := "", Direction := "" }
    rfl rfl rfl rfl rfl (Or.inl (by decide))⟩

/-! ## The listener port -/

/-- C10: the listener filter's `Port` is `uint32(port)`, the flag value modulo
`2 ^ 32`.  For a flag value `p` with `0 <= p < 2 ^ 32` the filter's `Port` is
`p`, hence the wildcard `0` exactly when `p = 0`; outside that range the value
wraps: `p = -1` gives `4294967295` and `p = 2 ^ 32` gives the wildcard `0`.
The cluster filter receives the flag value unconverted.  Both facts hold of
every filter found in a presenter call of the listener and of the cluster
command. -/
theorem listener_port_uint32 (env : Env) (g : Globals) (podName : String) :
    (((listenerFilter g).Port : Int) = g.port % (2 ^ 32 : Int)) ∧
    (0 ≤ g.port → g.port < 2 ^ 32 →
      ((listenerFilter g).Port : Int) = g.port ∧
      ((listenerFilter g).Port = 0 ↔ g.port = 0)) ∧
    (g.port = -1 → (listenerFilter g).Port = 4294967295) ∧
    (g.port = 2 ^ 32 → (listenerFilter g).Port = 0) ∧
    (clusterFilter g).Port = g.port ∧
    (∀ run f, listenerConfigCmd_RunE env g [podName] = some run →
      Call.PrintListenerSummary f ∈ run.calls ∨ Call.PrintListenerDump f ∈ run.calls →
      (f.Port : Int) = g.port % (2 ^ 32 : Int)) ∧
    (∀ run f, clusterConfigCmd_RunE env g [podName] = some run →
      Call.PrintClusterSummary f ∈ run.calls ∨ Call.PrintClusterDump f ∈ run.calls →
      f.Port = g.port) := by
  have hcast : ((listenerFilter g).Port : Int) = g.port % (2 ^ 32 : Int) := uint32_cast g.port
  refine ⟨hcast, ?_, ?_, ?_, rfl, ?_, ?_⟩
  · intro h0 h1
    have hp : g.port % (2 ^ 32 : Int) = g.port := Int.emod_eq_of_lt h0 h1
    rw [hp] at hcast
    refine ⟨hcast, ?_⟩
    omega
  · intro h
    have : (listenerFilter g).Port = uint32 g.port := rfl
    rw [this, h]
    decide
  · intro h
    have : (listenerFilter g).Port = uint32 g.port := rfl
    rw [this, h]
    decide
  · intro run f hrun hmem
    rw [listener_filter_of_mem env g podName run f hrun hmem]
    exact hcast
  · intro run f hrun hmem
    rw [cluster_filter_of_mem env g podName run f hrun hmem]
    rfl

/-- C10, witness: `--port -1`: the listener filter's `Port` is `4294967295`,
the cluster filter's is `-1`. -/
theorem listener_port_uint32_witness :
    negativePortGlobals.port = -1 ∧
    (listenerFilter negativePortGlobals).Port = 4294967295 ∧
    (clusterFilter negativePortGlobals).Port = -1 :=
  ⟨rfl, (listener_port_uint32 okEnv negativePortGlobals "details-v1").2.2.1 rfl,
    (listener_port_uint32 okEnv negativePortGlobals "details-v1").2.2.2.2.1⟩

end Istioctl
